import Mathlib

/-!
Verification development for the two PDF-extraction scripts of this
repository, `extract_profile.py` and `extract_pdf.py` (both under
`src/server/workspace/a9ce84d6-3b22-4acc-a074-cb0d7254b4ce/`).

Both scripts try third-party PDF libraries in a fixed order against one
hardcoded file path and print either the concatenated per-page text or a
diagnostic message.  The embedding below models a run of each script as a
pure function of the runtime environment: for each library the environment
determines whether its import raises `ImportError`, whether opening or page
iteration raises some other exception (and after how many pages), or whether
the page loop completes and which text each page yields.  A run produces the
ordered list of observable events (library import attempts and `print`
calls), or ends in an uncaught exception.
-/

/-- Hardcoded input path (`extract_profile.py` line 5; `extract_pdf.py`
lines 8 and 25 use the same literal). -/
def pdf_path : String :=
  "/Users/maverickshaw/Projects/Samantha/server/workspace/a9ce84d6-3b22-4acc-a074-cb0d7254b4ce/profile.pdf"

/-- Behaviour of one PDF library in a given runtime environment.
`importError msg` : the `import` statement raises `ImportError`.
`raiseError extracted msg` : the import succeeds but opening the file or
iterating its pages raises a non-`ImportError` exception with message `msg`,
after the pages in `extracted` had already yielded their text.
`complete pages` : the import succeeds and the page loop runs to completion,
page `i` (0-based) yielding text `pages[i]` (possibly empty). -/
inductive Behavior where
  | importError (msg : String)
  | raiseError (extracted : List String) (msg : String)
  | complete (pages : List String)

deriving instance DecidableEq for Behavior

/-- Python exceptions, as far as the scripts distinguish them: `ImportError`
versus every other `Exception`. -/
inductive Exn where
  | importErr (msg : String)
  | otherErr (msg : String)

deriving instance DecidableEq for Exn

/-- Observable events of a run: a library import attempt, or a `print`. -/
inductive Event where
  | attempt (lib : String)
  | out (s : String)

deriving instance DecidableEq for Event

/-- Result of running a script: the events of a normal run, or the events
printed before an uncaught exception terminated the process. -/
inductive RunResult where
  | finished (events : List Event)
  | crashed (events : List Event) (exn : String)

deriving instance DecidableEq for RunResult

/-- Events printed during a run, whether or not it finished. -/
def RunResult.events : RunResult → List Event
  | .finished evs => evs
  | .crashed evs _ => evs

/-- A run finished normally (no uncaught exception). -/
def RunResult.isFinished : RunResult → Bool
  | .finished _ => true
  | .crashed _ _ => false

/-- State of the hardcoded path on the file system, used by the
`os.path.exists` / `os.path.getsize` diagnostics of `extract_profile.py`
lines 7-10. -/
structure FsInfo where
  present : Bool
  size : Nat

/-- Runtime environment of `extract_profile.py`: the behaviour of each of
the three libraries in `libraries_to_try`. -/
structure Env where
  pypdf : Behavior
  PyPDF2 : Behavior
  pdfplumber : Behavior

/-- Runtime environment of `extract_pdf.py`: the behaviour of its two
libraries. -/
structure PdfEnv where
  pdfplumber : Behavior
  PyPDF2 : Behavior

/-- One page section of the output: the f-string
`f"=== PAGE {n} ===\n{page_text}\n\n"` of `extract_profile.py` lines 23,
34, 45 (`extract_pdf.py` lines 13-15 build the same string with three
separate appends). `n` is the printed 1-based page number. -/
def pageSection (n : Nat) (t : String) : String :=
  "=== PAGE " ++ toString n ++ " ===\n" ++ t ++ "\n\n"

/-- The accumulation `text += ...` over `enumerate(...pages)` starting at
0-based index `i`.  With `skipEmpty = true` this is the pdfplumber-style
loop guarded by `if page_text:` (`extract_profile.py` lines 42-45,
`extract_pdf.py` lines 10-15 and 28-33); with `skipEmpty = false` it is the
unguarded pypdf/PyPDF2 loop of `extract_profile.py` lines 21-23 and
32-34. -/
def accumFrom (skipEmpty : Bool) : Nat → List String → String
  | _, [] => ""
  | i, t :: ts =>
    (if skipEmpty && (t == "") then "" else pageSection (i + 1) t) ++
      accumFrom skipEmpty (i + 1) ts

/-- The `(page number, page text)` pairs for which the loop of `accumFrom`
emits a section, in emission order. -/
def emittedSections (skipEmpty : Bool) : Nat → List String → List (Nat × String)
  | _, [] => []
  | i, t :: ts =>
    (if skipEmpty && (t == "") then [] else [(i + 1, t)]) ++
      emittedSections skipEmpty (i + 1) ts

/-- One full backend attempt (import, open, page loop): the accumulated text
if the loop completes, otherwise the exception raised.  Partial text
accumulated before a mid-loop exception is abandoned, exactly as the
scripts' control flow jumps to the `except` clause before any `print`. -/
def runBackend (skipEmpty : Bool) : Behavior → Except Exn String
  | .importError m => .error (.importErr m)
  | .raiseError _ m => .error (.otherErr m)
  | .complete ps => .ok (accumFrom skipEmpty 0 ps)

/-- One iteration of the backend loop of `extract_profile.py` lines 16-54
for library `lib`: the events it prints and whether it reached `break`.
`except ImportError` prints `"{lib} not available"` (line 50),
`except Exception as e` prints `"Error with {lib}: {e}"` (line 53), and a
completed loop prints `"SUCCESS with {lib}:"` and the accumulated text and
breaks (lines 24-26, 35-37, 46-48). -/
def profileTry (b : Behavior) (lib : String) (skipEmpty : Bool) : List Event × Bool :=
  match runBackend skipEmpty b with
  | .ok text => ([.attempt lib, .out ("SUCCESS with " ++ lib ++ ":"), .out text], true)
  | .error (.importErr _) => ([.attempt lib, .out (lib ++ " not available")], false)
  | .error (.otherErr m) => ([.attempt lib, .out ("Error with " ++ lib ++ ": " ++ m)], false)

/-- The `if lib == 'pypdf' ... elif ... elif ...` dispatch of
`extract_profile.py` lines 17, 27, 38: only the pdfplumber branch guards
page text with `if page_text:`; an unknown name would match no branch and
do nothing. -/
def profileStep (e : Env) (lib : String) : List Event × Bool :=
  if lib = "pypdf" then profileTry e.pypdf lib false
  else if lib = "PyPDF2" then profileTry e.PyPDF2 lib false
  else if lib = "pdfplumber" then profileTry e.pdfplumber lib true
  else ([], false)

/-- Priority order of `extract_profile.py` line 13. -/
def libraries_to_try : List String := ["pypdf", "PyPDF2", "pdfplumber"]

/-- The `for lib in libraries_to_try:` loop of `extract_profile.py`
lines 15-54: run each backend in order, stopping at the first `break`. -/
def profileLoop (e : Env) : List String → List Event
  | [] => []
  | lib :: rest =>
    let s := profileStep e lib
    if s.2 then s.1 else s.1 ++ profileLoop e rest

/-- The diagnostics printed before the loop (`extract_profile.py`
lines 6-10): the path, `os.path.exists`, and the size when the file
exists. -/
def headerEvents (fs : FsInfo) : List Event :=
  [.out ("Trying to process PDF: " ++ pdf_path),
   .out ("File exists: " ++ (if fs.present then "True" else "False"))] ++
    (if fs.present then [.out ("File size: " ++ toString fs.size ++ " bytes")] else [])

/-- A whole run of `extract_profile.py`: header diagnostics, the backend
loop, and the final `print("Finished trying all libraries")` (line 56).
Every exception raised inside the loop body is caught by one of its two
`except` clauses, so the run always finishes. -/
def extract_profile (e : Env) (fs : FsInfo) : RunResult :=
  .finished (headerEvents fs ++ profileLoop e libraries_to_try ++
    [.out "Finished trying all libraries"])

/-- A whole run of `extract_pdf.py` (lines 5-41): try pdfplumber (with the
`if text:` guard, lines 12-15); on `ImportError` print
`"Error importing pdfplumber: {e}"` (line 20) and fall back to PyPDF2
(lines 22-38, also guarded by `if text:` at line 30) whose surrounding
`try` catches only `ImportError` (line 37) — any other exception raised by
the fallback propagates out of the script uncaught, because the outer
`except Exception` (line 40) belongs to the already-active `try` block and
does not cover its own handler.  A non-`ImportError` failure of pdfplumber
is caught at line 40 and printed as `"Error reading PDF: {e}"`. -/
def extract_pdf (e : PdfEnv) : RunResult :=
  match runBackend true e.pdfplumber with
  | .ok text => .finished [.attempt "pdfplumber", .out text]
  | .error (.otherErr m) =>
    .finished [.attempt "pdfplumber", .out ("Error reading PDF: " ++ m)]
  | .error (.importErr m) =>
    let evs := [Event.attempt "pdfplumber",
      Event.out ("Error importing pdfplumber: " ++ m), Event.attempt "PyPDF2"]
    match runBackend true e.PyPDF2 with
    | .ok text => .finished (evs ++ [.out text])
    | .error (.importErr _) =>
      .finished (evs ++ [.out "Neither pdfplumber nor PyPDF2 available"])
    | .error (.otherErr m2) => .crashed evs m2

/-- Behaviour of library `lib` in environment `e` (meaningful for the three
names in `libraries_to_try`). -/
def Env.get (e : Env) (lib : String) : Behavior :=
  if lib = "pypdf" then e.pypdf
  else if lib = "PyPDF2" then e.PyPDF2
  else e.pdfplumber

/-- A behaviour that does not complete its page loop (import or open/page
error). -/
def Behavior.fails : Behavior → Bool
  | .complete _ => false
  | _ => true

/-- Whether the branch for `lib` in `extract_profile.py` guards page text
with `if page_text:` (only the pdfplumber branch does). -/
def skipFor (lib : String) : Bool := lib = "pdfplumber"

/-- Events of one loop iteration. -/
def stepEvents (e : Env) (lib : String) : List Event := (profileStep e lib).1

/-- Events printed by a run of consecutive non-breaking loop iterations. -/
def failEvents (e : Env) : List String → List Event
  | [] => []
  | lib :: rest => stepEvents e lib ++ failEvents e rest

/-!
Splitting machinery: re-splitting an output string on its
`=== PAGE <n> ===` marker lines, used to state the spec's round-trip and
page-index properties.  It is deliberately defined over the character list
of the string, split into lines at each newline character.
-/

/-- Value of an ASCII digit character. -/
def digitVal (c : Char) : Nat := c.toNat - 48

/-- Value of a big-endian list of ASCII digit characters. -/
def digitsVal (l : List Char) : Nat := l.foldl (fun n c => 10 * n + digitVal c) 0

/-- Decimal digit characters of `n`, most significant first (a fuel-free
counterpart of the standard library rendering of naturals). -/
def myDigits (n : Nat) : List Char :=
  if _h : n < 10 then [Nat.digitChar n]
  else myDigits (n / 10) ++ [Nat.digitChar (n % 10)]
decreasing_by
  exact Nat.div_lt_self (by omega) (by omega)

/-- Characters before the page number in a marker line. -/
def markerPre : List Char := ['=', '=', '=', ' ', 'P', 'A', 'G', 'E', ' ']

/-- Characters after the page number in a marker line. -/
def markerSuf : List Char := [' ', '=', '=', '=']

/-- Strip a fixed expected front from a list, or fail. -/
def dropFront : List Char → List Char → Option (List Char)
  | [], l => some l
  | _ :: _, [] => none
  | p :: ps, c :: cs => if c = p then dropFront ps cs else none

/-- Recognise a line of the exact form `=== PAGE <digits> ===` and return
the page number. -/
def parseMarker (l : List Char) : Option Nat :=
  match dropFront markerPre l with
  | none => none
  | some rest =>
    let ds := rest.take (rest.length - 4)
    let tail := rest.drop (rest.length - 4)
    if tail = markerSuf ∧ ds ≠ [] ∧ ds.all Char.isDigit then some (digitsVal ds)
    else none

/-- Extend the first line of a line list with a leading character. -/
def consHead (c : Char) : List (List Char) → List (List Char)
  | [] => [[c]]
  | l :: ls => (c :: l) :: ls

/-- Split a character list into lines at each newline character (the split
keeps empty lines; a trailing newline yields a final empty line). -/
def lineSplit : List Char → List (List Char)
  | [] => [[]]
  | c :: cs => if c = '\n' then [] :: lineSplit cs else consHead c (lineSplit cs)

/-- Extend the first line of a line list with a leading segment. -/
def prependHead (a : List Char) : List (List Char) → List (List Char)
  | [] => [a]
  | l :: ls => (a ++ l) :: ls

/-- Inverse of `lineSplit`: interleave the lines with newline characters. -/
def joinLines : List (List Char) → List Char
  | [] => []
  | [l] => l
  | l :: ls => l ++ '\n' :: joinLines ls

/-- Group a line list into sections, one per marker line: each section
carries its page number and the (reversed-accumulator) body lines up to the
next marker; lines before the first marker are discarded. -/
def groupAux : Option (Nat × List (List Char)) → List (List Char) → List (Nat × List (List Char))
  | none, [] => []
  | some (k, acc), [] => [(k, acc.reverse)]
  | cur, l :: ls =>
    match parseMarker l with
    | some k =>
      match cur with
      | none => groupAux (some (k, [])) ls
      | some (k0, acc) => (k0, acc.reverse) :: groupAux (some (k, [])) ls
    | none =>
      match cur with
      | none => groupAux none ls
      | some (k0, acc) => groupAux (some (k0, l :: acc)) ls

/-- Drop the final empty line produced by a trailing newline, if any. -/
def stripTrailingNil (ls : List (List Char)) : List (List Char) :=
  match ls.getLast? with
  | some [] => ls.dropLast
  | _ => ls

/-- Re-split an output string on its `=== PAGE <n> ===` marker lines: the
recovered `(page number, page text)` pairs, each body stripped of the
blank-line separator that follows every page text. -/
def splitPages (s : String) : List (Nat × String) :=
  (groupAux none (stripTrailingNil (lineSplit s.data))).map
    (fun kb => (kb.1, String.mk (joinLines kb.2.dropLast)))

/-- The marker line printed for page number `k`. -/
def markerLine (k : Nat) : List Char := markerPre ++ (toString k).data ++ markerSuf

/-- Character-level form of one page section. -/
def sectionChars (k : Nat) (t : String) : List Char :=
  markerLine k ++ '\n' :: (t.data ++ ['\n', '\n'])

/-- Character-level form of a section list, as concatenated by the
scripts. -/
def flatRender : List (Nat × String) → List Char
  | [] => []
  | s :: rest => sectionChars s.1 s.2 ++ flatRender rest

/-- Line lists of a rendered section list, including the final empty line
contributed by the trailing newline of the last section. -/
def renderLines : List (Nat × String) → List (List Char)
  | [] => [[]]
  | s :: rest => markerLine s.1 :: (lineSplit s.2.data ++ ([] :: renderLines rest))

/-- Line lists of a rendered section list without the final empty line. -/
def bodyLines : List (Nat × String) → List (List Char)
  | [] => []
  | s :: rest => markerLine s.1 :: (lineSplit s.2.data ++ ([] :: bodyLines rest))

/-- A page text none of whose lines looks like a page marker. -/
def cleanText (t : String) : Prop :=
  ∀ l ∈ lineSplit t.data, parseMarker l = none

instance (t : String) : Decidable (cleanText t) := by
  unfold cleanText; infer_instance

/-!
General lemmas about the embedded scripts.
-/

theorem profileTry_importError (m lib : String) (sk : Bool) :
    profileTry (.importError m) lib sk =
      ([.attempt lib, .out (lib ++ " not available")], false) := rfl

theorem profileTry_raiseError (ps : List String) (m lib : String) (sk : Bool) :
    profileTry (.raiseError ps m) lib sk =
      ([.attempt lib, .out ("Error with " ++ lib ++ ": " ++ m)], false) := rfl

theorem profileTry_complete (ps : List String) (lib : String) (sk : Bool) :
    profileTry (.complete ps) lib sk =
      ([.attempt lib, .out ("SUCCESS with " ++ lib ++ ":"),
        .out (accumFrom sk 0 ps)], true) := rfl

theorem profileStep_pypdf (e : Env) :
    profileStep e "pypdf" = profileTry e.pypdf "pypdf" false := rfl

theorem profileStep_PyPDF2 (e : Env) :
    profileStep e "PyPDF2" = profileTry e.PyPDF2 "PyPDF2" false := rfl

theorem profileStep_pdfplumber (e : Env) :
    profileStep e "pdfplumber" = profileTry e.pdfplumber "pdfplumber" true := rfl

theorem events_def (e : Env) (fs : FsInfo) :
    (extract_profile e fs).events =
      headerEvents fs ++ profileLoop e libraries_to_try ++
        [.out "Finished trying all libraries"] := rfl

theorem loop_break (e : Env) (lib : String) (rest : List String)
    (h : (profileStep e lib).2 = true) :
    profileLoop e (lib :: rest) = (profileStep e lib).1 := by
  simp [profileLoop, h]

theorem loop_continue (e : Env) (lib : String) (rest : List String)
    (h : (profileStep e lib).2 = false) :
    profileLoop e (lib :: rest) = (profileStep e lib).1 ++ profileLoop e rest := by
  simp [profileLoop, h]

theorem mem_loop_head {a : Event} {e : Env} {lib : String} {rest : List String}
    (h : a ∈ (profileStep e lib).1) : a ∈ profileLoop e (lib :: rest) := by
  cases hb : (profileStep e lib).2
  · rw [loop_continue e lib rest hb]; exact List.mem_append_left _ h
  · rw [loop_break e lib rest hb]; exact h

theorem mem_loop_tail {a : Event} (e : Env) (lib : String) (rest : List String)
    (h2 : (profileStep e lib).2 = false) (h : a ∈ profileLoop e rest) :
    a ∈ profileLoop e (lib :: rest) := by
  rw [loop_continue e lib rest h2]; exact List.mem_append_right _ h

theorem mem_events_of_mem_loop {a : Event} (e : Env) (fs : FsInfo)
    (h : a ∈ profileLoop e libraries_to_try) : a ∈ (extract_profile e fs).events := by
  rw [events_def]
  exact List.mem_append_left _ (List.mem_append_right _ h)

theorem attempt_mem_try (b : Behavior) (lib : String) (sk : Bool) :
    Event.attempt lib ∈ (profileTry b lib sk).1 := by
  cases b <;> simp [profileTry, runBackend]

theorem step_pypdf_fails (e : Env) (h : e.pypdf.fails = true) :
    (profileStep e "pypdf").2 = false := by
  rw [profileStep_pypdf]
  cases hb : e.pypdf <;> simp [profileTry, runBackend] <;>
    simp [hb, Behavior.fails] at h

theorem step_PyPDF2_fails (e : Env) (h : e.PyPDF2.fails = true) :
    (profileStep e "PyPDF2").2 = false := by
  rw [profileStep_PyPDF2]
  cases hb : e.PyPDF2 <;> simp [profileTry, runBackend] <;>
    simp [hb, Behavior.fails] at h

theorem step_pdfplumber_fails (e : Env) (h : e.pdfplumber.fails = true) :
    (profileStep e "pdfplumber").2 = false := by
  rw [profileStep_pdfplumber]
  cases hb : e.pdfplumber <;> simp [profileTry, runBackend] <;>
    simp [hb, Behavior.fails] at h

/-!
Claim C1.
-/

/-- C1, counterexample: the claim says that for a path not referencing an
existing file the extraction fails with `FileNotFound` before any backend is
attempted.  In an environment where the hardcoded file does not exist (so
every library raises a file-not-found error on open), `extract_profile.py`
nevertheless attempts the `pypdf` import, and `extract_pdf.py` attempts the
`pdfplumber` import: backends are attempted, and no `FileNotFound` failure
precedes them. -/
theorem c1_counterexample :
    (FsInfo.mk false 0).present = false ∧
    Event.attempt "pypdf" ∈
      (extract_profile
        ⟨.raiseError [] "No such file or directory",
         .raiseError [] "No such file or directory",
         .raiseError [] "No such file or directory"⟩ ⟨false, 0⟩).events ∧
    Event.attempt "pdfplumber" ∈
      (extract_pdf ⟨.raiseError [] "No such file or directory",
        .importError "m"⟩).events := by
  refine ⟨rfl, ?_, ?_⟩ <;> decide

/-- C1, amended: when the path does not reference an existing file,
`extract_profile.py` only prints the diagnostic `File exists: False` and
then still attempts every backend in order; each backend's file-not-found
exception is caught and reported as `Error with <lib>: <cause>`, and the run
ends normally.  `extract_pdf.py` performs no existence check at all: the
pdfplumber open error is caught by the generic handler and reported as
`Error reading PDF: <cause>`. -/
theorem c1_missing_file_backends_attempted (m1 m2 m3 : String) (fs : FsInfo)
    (hfs : fs.present = false) :
    extract_profile ⟨.raiseError [] m1, .raiseError [] m2, .raiseError [] m3⟩ fs =
      .finished [.out ("Trying to process PDF: " ++ pdf_path), .out "File exists: False",
        .attempt "pypdf", .out ("Error with pypdf: " ++ m1),
        .attempt "PyPDF2", .out ("Error with PyPDF2: " ++ m2),
        .attempt "pdfplumber", .out ("Error with pdfplumber: " ++ m3),
        .out "Finished trying all libraries"] ∧
    (∀ b : Behavior, extract_pdf ⟨.raiseError [] m1, b⟩ =
      .finished [.attempt "pdfplumber", .out ("Error reading PDF: " ++ m1)]) := by
  constructor
  · simp [extract_profile, headerEvents, hfs, libraries_to_try, profileLoop,
      profileStep, profileTry, runBackend]
  · intro b; rfl

/-- C1, witness for the amended theorem at a concrete input. -/
theorem c1_witness :
    extract_profile ⟨.raiseError [] "e1", .raiseError [] "e2", .raiseError [] "e3"⟩
        ⟨false, 0⟩ =
      .finished [.out ("Trying to process PDF: " ++ pdf_path), .out "File exists: False",
        .attempt "pypdf", .out "Error with pypdf: e1",
        .attempt "PyPDF2", .out "Error with PyPDF2: e2",
        .attempt "pdfplumber", .out "Error with pdfplumber: e3",
        .out "Finished trying all libraries"] ∧
    extract_pdf ⟨.raiseError [] "e1", .complete ["x"]⟩ =
      .finished [.attempt "pdfplumber", .out "Error reading PDF: e1"] :=
  ⟨(c1_missing_file_backends_attempted "e1" "e2" "e3" ⟨false, 0⟩ rfl).1,
   (c1_missing_file_backends_attempted "e1" "e2" "e3" ⟨false, 0⟩ rfl).2 (.complete ["x"])⟩

/-!
Claim C2.
-/

/-- C2, counterexample: the claim says no run ever terminates abnormally.
In an environment where pdfplumber's import fails and PyPDF2 raises a
non-ImportError exception (here: the hardcoded file does not exist),
`extract_pdf.py` ends with an uncaught exception. -/
theorem c2_counterexample :
    extract_pdf ⟨.importError "no module named pdfplumber", .raiseError [] "No such file"⟩ =
      .crashed [.attempt "pdfplumber",
        .out "Error importing pdfplumber: no module named pdfplumber",
        .attempt "PyPDF2"] "No such file" ∧
    (extract_pdf ⟨.importError "no module named pdfplumber",
      .raiseError [] "No such file"⟩).isFinished = false :=
  ⟨rfl, rfl⟩

/-- C2, amended: `extract_profile.py` always finishes normally with a
result, in every environment; `extract_pdf.py` finishes normally except
exactly when pdfplumber's import fails and the PyPDF2 fallback then raises a
non-ImportError exception, which escapes uncaught. -/
theorem c2_always_result_characterization :
    (∀ (e : Env) (fs : FsInfo), (extract_profile e fs).isFinished = true) ∧
    (∀ d : PdfEnv, (extract_pdf d).isFinished = false ↔
      ∃ m ps m2, d.pdfplumber = .importError m ∧ d.PyPDF2 = .raiseError ps m2) := by
  constructor
  · intro e fs; rfl
  · intro d
    obtain ⟨b1, b2⟩ := d
    cases b1 <;> cases b2 <;>
      simp [extract_pdf, runBackend, RunResult.isFinished]

theorem attempt_not_mem_header (fs : FsInfo) (lib : String) :
    Event.attempt lib ∉ headerEvents fs := by
  cases hp : fs.present <;> simp [headerEvents, hp]

theorem attempt_mem_try_eq (b : Behavior) (lib sk_lib : String) (sk : Bool)
    (h : Event.attempt sk_lib ∈ (profileTry b lib sk).1) : sk_lib = lib := by
  cases b <;> simp [profileTry, runBackend] at h <;> exact h

/-!
Claim C3.
-/

/-- C3, counterexample: the claim says an open failure is recorded and the
extractor continues to the next backend.  In `extract_pdf.py` a structural
(non-ImportError) failure of pdfplumber ends the run with
`Error reading PDF: ...` and PyPDF2 is never attempted, even though it is
available and would succeed. -/
theorem c3_counterexample :
    extract_pdf ⟨.raiseError [] "bad xref table", .complete ["x"]⟩ =
      .finished [.attempt "pdfplumber", .out "Error reading PDF: bad xref table"] ∧
    Event.attempt "PyPDF2" ∉
      (extract_pdf ⟨.raiseError [] "bad xref table", .complete ["x"]⟩).events :=
  ⟨rfl, by decide⟩

/-- C3, amended: in `extract_profile.py` an open/page error from a backend
is caught, reported as `Error with <lib>: <cause>`, and the next backend in
order is attempted; in `extract_pdf.py` a structural error from pdfplumber
is reported as `Error reading PDF: <cause>` and the run ends without
attempting PyPDF2 (only an `ImportError` triggers that fallback). -/
theorem c3_open_error_continue (e : Env) (fs : FsInfo) :
    (∀ ps m, e.pypdf = .raiseError ps m →
      Event.out ("Error with pypdf: " ++ m) ∈ (extract_profile e fs).events ∧
      Event.attempt "PyPDF2" ∈ (extract_profile e fs).events) ∧
    (∀ ps m, e.pypdf.fails = true → e.PyPDF2 = .raiseError ps m →
      Event.out ("Error with PyPDF2: " ++ m) ∈ (extract_profile e fs).events ∧
      Event.attempt "pdfplumber" ∈ (extract_profile e fs).events) ∧
    (∀ ps m, e.pypdf.fails = true → e.PyPDF2.fails = true →
      e.pdfplumber = .raiseError ps m →
      Event.out ("Error with pdfplumber: " ++ m) ∈ (extract_profile e fs).events) ∧
    (∀ (d : PdfEnv) (ps : List String) (m : String), d.pdfplumber = .raiseError ps m →
      extract_pdf d = .finished [.attempt "pdfplumber",
        .out ("Error reading PDF: " ++ m)]) := by
  refine ⟨?_, ?_, ?_, ?_⟩
  · intro ps m hb
    have hstep : profileStep e "pypdf" =
        ([.attempt "pypdf", .out ("Error with pypdf: " ++ m)], false) := by
      rw [profileStep_pypdf, hb, profileTry_raiseError]; rfl
    constructor
    · apply mem_events_of_mem_loop
      apply mem_loop_head
      rw [hstep]; simp
    · apply mem_events_of_mem_loop
      apply mem_loop_tail _ _ _ (by rw [hstep])
      apply mem_loop_head
      rw [profileStep_PyPDF2]; exact attempt_mem_try _ _ _
  · intro ps m hf hb
    have hstep : profileStep e "PyPDF2" =
        ([.attempt "PyPDF2", .out ("Error with PyPDF2: " ++ m)], false) := by
      rw [profileStep_PyPDF2, hb, profileTry_raiseError]; rfl
    constructor
    · apply mem_events_of_mem_loop
      apply mem_loop_tail _ _ _ (step_pypdf_fails e hf)
      apply mem_loop_head
      rw [hstep]; simp
    · apply mem_events_of_mem_loop
      apply mem_loop_tail _ _ _ (step_pypdf_fails e hf)
      apply mem_loop_tail _ _ _ (by rw [hstep])
      apply mem_loop_head
      rw [profileStep_pdfplumber]; exact attempt_mem_try _ _ _
  · intro ps m hf1 hf2 hb
    have hstep : profileStep e "pdfplumber" =
        ([.attempt "pdfplumber", .out ("Error with pdfplumber: " ++ m)], false) := by
      rw [profileStep_pdfplumber, hb, profileTry_raiseError]; rfl
    apply mem_events_of_mem_loop
    apply mem_loop_tail _ _ _ (step_pypdf_fails e hf1)
    apply mem_loop_tail _ _ _ (step_PyPDF2_fails e hf2)
    apply mem_loop_head
    rw [hstep]; simp
  · intro d ps m hb
    simp [extract_pdf, hb, runBackend]

/-- C3, witness for the amended theorem at concrete inputs. -/
theorem c3_witness :
    (Event.out "Error with pypdf: boom" ∈
       (extract_profile ⟨.raiseError [] "boom", .importError "x", .importError "y"⟩
         ⟨true, 1⟩).events ∧
     Event.attempt "PyPDF2" ∈
       (extract_profile ⟨.raiseError [] "boom", .importError "x", .importError "y"⟩
         ⟨true, 1⟩).events) ∧
    (Event.out "Error with PyPDF2: boom2" ∈
       (extract_profile ⟨.importError "x", .raiseError [] "boom2", .importError "y"⟩
         ⟨true, 1⟩).events ∧
     Event.attempt "pdfplumber" ∈
       (extract_profile ⟨.importError "x", .raiseError [] "boom2", .importError "y"⟩
         ⟨true, 1⟩).events) ∧
    Event.out "Error with pdfplumber: boom3" ∈
      (extract_profile ⟨.importError "x", .importError "y", .raiseError [] "boom3"⟩
        ⟨true, 1⟩).events ∧
    extract_pdf ⟨.raiseError [] "boom4", .complete []⟩ =
      .finished [.attempt "pdfplumber", .out "Error reading PDF: boom4"] :=
  ⟨(c3_open_error_continue _ ⟨true, 1⟩).1 [] "boom" rfl,
   (c3_open_error_continue _ ⟨true, 1⟩).2.1 [] "boom2" rfl rfl,
   (c3_open_error_continue ⟨.importError "x", .importError "y", .raiseError [] "boom3"⟩
     ⟨true, 1⟩).2.2.1 [] "boom3" rfl rfl rfl,
   (c3_open_error_continue ⟨.importError "x", .importError "y", .raiseError [] "boom3"⟩
     ⟨true, 1⟩).2.2.2 ⟨.raiseError [] "boom4", .complete []⟩ [] "boom4" rfl⟩

/-!
Claim C4.
-/

/-- C4, counterexample: the claim says a backend whose pages all yield empty
text is treated as a soft failure and the next backend is tried, and an
empty result is never returned as a success.  With pypdf available on a
document whose single page yields empty text, the run prints
`SUCCESS with pypdf:` together with a marker-only text and stops: the later
backends, which would have produced real text, are never attempted. -/
theorem c4_counterexample :
    (extract_profile ⟨.complete [""], .complete ["good"], .complete ["good"]⟩
        ⟨true, 9⟩).events =
      [.out ("Trying to process PDF: " ++ pdf_path), .out "File exists: True",
       .out "File size: 9 bytes", .attempt "pypdf", .out "SUCCESS with pypdf:",
       .out "=== PAGE 1 ===\n\n\n", .out "Finished trying all libraries"] ∧
    Event.attempt "PyPDF2" ∉
      (extract_profile ⟨.complete [""], .complete ["good"], .complete ["good"]⟩
        ⟨true, 9⟩).events :=
  ⟨by decide, by decide⟩

theorem accumFrom_true_all_empty (ps : List String) :
    ∀ i, (∀ t ∈ ps, t = "") → accumFrom true i ps = "" := by
  induction ps with
  | nil => intro i _; rfl
  | cons t ts ih =>
    intro i h
    have ht : t = "" := h t (by simp)
    have hts : ∀ u ∈ ts, u = "" := fun u hu => h u (by simp [hu])
    subst ht
    show (if (true && ("" == "")) = true then "" else pageSection (i + 1) "") ++
      accumFrom true (i + 1) ts = ""
    rw [if_pos (by decide), ih (i + 1) hts]
    rfl

/-- C4, amended: a backend that completes its page loop is always treated as
success and the loop breaks, regardless of whether the accumulated text is
empty.  With pypdf completing on all-empty pages the run prints
`SUCCESS with pypdf:` and the marker-only accumulation and attempts no
further backend; the pdfplumber-style accumulation of the same pages would
even be the empty string.  There is no empty-result soft failure. -/
theorem c4_empty_completion_succeeds (e : Env) (fs : FsInfo) (ps : List String)
    (hok : e.pypdf = .complete ps) (hemp : ∀ t ∈ ps, t = "") :
    Event.out "SUCCESS with pypdf:" ∈ (extract_profile e fs).events ∧
    Event.out (accumFrom false 0 ps) ∈ (extract_profile e fs).events ∧
    Event.attempt "PyPDF2" ∉ (extract_profile e fs).events ∧
    Event.attempt "pdfplumber" ∉ (extract_profile e fs).events ∧
    accumFrom true 0 ps = "" := by
  have hstep : profileStep e "pypdf" =
      ([.attempt "pypdf", .out ("SUCCESS with " ++ "pypdf" ++ ":"),
        .out (accumFrom false 0 ps)], true) := by
    rw [profileStep_pypdf, hok, profileTry_complete]
  have hloop : profileLoop e libraries_to_try =
      [.attempt "pypdf", .out ("SUCCESS with " ++ "pypdf" ++ ":"),
       .out (accumFrom false 0 ps)] := by
    rw [show libraries_to_try = "pypdf" :: ["PyPDF2", "pdfplumber"] from rfl,
      loop_break _ _ _ (by rw [hstep]), hstep]
  refine ⟨?_, ?_, ?_, ?_, accumFrom_true_all_empty ps 0 hemp⟩
  · apply mem_events_of_mem_loop; rw [hloop]; simp
  · apply mem_events_of_mem_loop; rw [hloop]; simp
  · intro hmem
    rw [events_def, hloop] at hmem
    rcases List.mem_append.mp hmem with h | h
    · rcases List.mem_append.mp h with h | h
      · exact attempt_not_mem_header fs "PyPDF2" h
      · simp at h
    · simp at h
  · intro hmem
    rw [events_def, hloop] at hmem
    rcases List.mem_append.mp hmem with h | h
    · rcases List.mem_append.mp h with h | h
      · exact attempt_not_mem_header fs "pdfplumber" h
      · simp at h
    · simp at h

/-- C4, witness for the amended theorem at a concrete input. -/
theorem c4_witness :
    Event.out "SUCCESS with pypdf:" ∈
      (extract_profile ⟨.complete [""], .importError "a", .importError "b"⟩
        ⟨false, 0⟩).events ∧
    Event.out (accumFrom false 0 [""]) ∈
      (extract_profile ⟨.complete [""], .importError "a", .importError "b"⟩
        ⟨false, 0⟩).events ∧
    Event.attempt "PyPDF2" ∉
      (extract_profile ⟨.complete [""], .importError "a", .importError "b"⟩
        ⟨false, 0⟩).events ∧
    Event.attempt "pdfplumber" ∉
      (extract_profile ⟨.complete [""], .importError "a", .importError "b"⟩
        ⟨false, 0⟩).events ∧
    accumFrom true 0 [""] = "" :=
  c4_empty_completion_succeeds ⟨.complete [""], .importError "a", .importError "b"⟩
    ⟨false, 0⟩ [""] rfl (by decide)

/-!
Claim C5.
-/

/-- C5: first-success-wins.  If every backend before `lib` in the priority
order fails (unavailable, open error, or page-loop error) and `lib`
completes its page loop with non-empty accumulated text, then the run's
events are exactly the header, the failing attempts, `lib`'s success output,
and the footer — and no backend after `lib` in the priority order is ever
attempted. -/
theorem c5_first_success_wins (e : Env) (fs : FsInfo) (pre post : List String)
    (lib : String) (ps : List String)
    (hsplit : libraries_to_try = pre ++ lib :: post)
    (hfail : ∀ l ∈ pre, (Env.get e l).fails = true)
    (hok : Env.get e lib = .complete ps)
    (hne : accumFrom (skipFor lib) 0 ps ≠ "") :
    (extract_profile e fs).events =
      headerEvents fs ++ (failEvents e pre ++
        [.attempt lib, .out ("SUCCESS with " ++ lib ++ ":"),
         .out (accumFrom (skipFor lib) 0 ps)]) ++
      [.out "Finished trying all libraries"] ∧
    ∀ l ∈ post, Event.attempt l ∉ (extract_profile e fs).events := by
  rcases pre with _ | ⟨p1, pre⟩
  · simp only [libraries_to_try, List.nil_append, List.cons.injEq] at hsplit
    obtain ⟨h1, h2⟩ := hsplit
    subst h1; subst h2
    replace hok : e.pypdf = Behavior.complete ps := hok
    have hstep : profileStep e "pypdf" =
        ([.attempt "pypdf", .out ("SUCCESS with " ++ "pypdf" ++ ":"),
          .out (accumFrom false 0 ps)], true) := by
      rw [profileStep_pypdf, hok, profileTry_complete]
    have hloop : profileLoop e libraries_to_try =
        [.attempt "pypdf", .out ("SUCCESS with " ++ "pypdf" ++ ":"),
         .out (accumFrom false 0 ps)] := by
      rw [show libraries_to_try = "pypdf" :: ["PyPDF2", "pdfplumber"] from rfl,
        loop_break _ _ _ (by rw [hstep]), hstep]
    constructor
    · rw [events_def, hloop]
      simp [failEvents, skipFor]
    · intro l hl hmem
      rw [events_def, hloop] at hmem
      rcases List.mem_append.mp hmem with h | h
      · rcases List.mem_append.mp h with h | h
        · exact attempt_not_mem_header fs l h
        · simp at h
          subst h
          simp at hl
      · simp at h
  rcases pre with _ | ⟨p2, pre⟩
  · simp only [libraries_to_try, List.cons_append, List.nil_append,
      List.cons.injEq] at hsplit
    obtain ⟨h1, h2, h3⟩ := hsplit
    subst h1; subst h2; subst h3
    have hf1 : e.pypdf.fails = true := hfail "pypdf" (by simp)
    replace hok : e.PyPDF2 = Behavior.complete ps := hok
    have hstep2 : profileStep e "PyPDF2" =
        ([.attempt "PyPDF2", .out ("SUCCESS with " ++ "PyPDF2" ++ ":"),
          .out (accumFrom false 0 ps)], true) := by
      rw [profileStep_PyPDF2, hok, profileTry_complete]
    have hloop : profileLoop e libraries_to_try =
        (profileStep e "pypdf").1 ++
          [.attempt "PyPDF2", .out ("SUCCESS with " ++ "PyPDF2" ++ ":"),
           .out (accumFrom false 0 ps)] := by
      rw [show libraries_to_try = "pypdf" :: "PyPDF2" :: ["pdfplumber"] from rfl,
        loop_continue _ _ _ (step_pypdf_fails e hf1),
        loop_break _ _ _ (by rw [hstep2]), hstep2]
    constructor
    · rw [events_def, hloop]
      simp [failEvents, stepEvents, skipFor]
    · intro l hl hmem
      rw [events_def, hloop] at hmem
      rcases List.mem_append.mp hmem with h | h
      · rcases List.mem_append.mp h with h | h
        · exact attempt_not_mem_header fs l h
        · rcases List.mem_append.mp h with h | h
          · rw [profileStep_pypdf] at h
            have h0 := attempt_mem_try_eq _ _ _ _ h
            subst h0
            simp at hl
          · simp at h
            subst h
            simp at hl
      · simp at h
  rcases pre with _ | ⟨p3, pre⟩
  · simp only [libraries_to_try, List.cons_append, List.nil_append,
      List.cons.injEq] at hsplit
    obtain ⟨h1, h2, h3, h4⟩ := hsplit
    subst h1; subst h2; subst h3; subst h4
    have hf1 : e.pypdf.fails = true := hfail "pypdf" (by simp)
    have hf2 : e.PyPDF2.fails = true := hfail "PyPDF2" (by simp)
    replace hok : e.pdfplumber = Behavior.complete ps := hok
    have hstep3 : profileStep e "pdfplumber" =
        ([.attempt "pdfplumber", .out ("SUCCESS with " ++ "pdfplumber" ++ ":"),
          .out (accumFrom true 0 ps)], true) := by
      rw [profileStep_pdfplumber, hok, profileTry_complete]
    have hloop : profileLoop e libraries_to_try =
        (profileStep e "pypdf").1 ++ ((profileStep e "PyPDF2").1 ++
          [.attempt "pdfplumber", .out ("SUCCESS with " ++ "pdfplumber" ++ ":"),
           .out (accumFrom true 0 ps)]) := by
      rw [show libraries_to_try = "pypdf" :: "PyPDF2" :: "pdfplumber" :: [] from rfl,
        loop_continue _ _ _ (step_pypdf_fails e hf1),
        loop_continue _ _ _ (step_PyPDF2_fails e hf2),
        loop_break _ _ _ (by rw [hstep3]), hstep3]
    constructor
    · rw [events_def, hloop]
      simp [failEvents, stepEvents, skipFor]
    · intro l hl hmem
      simp at hl
  · exfalso
    have hlen := congrArg List.length hsplit
    simp [libraries_to_try] at hlen

/-- C5, witness at a concrete input: the first backend completes with
non-empty text, the run returns it, and PyPDF2 is never attempted. -/
theorem c5_witness :
    (extract_profile ⟨.complete ["hello"], .importError "a", .importError "b"⟩
        ⟨true, 3⟩).events =
      headerEvents ⟨true, 3⟩ ++
        (failEvents ⟨.complete ["hello"], .importError "a", .importError "b"⟩ [] ++
          [.attempt "pypdf", .out ("SUCCESS with " ++ "pypdf" ++ ":"),
           .out (accumFrom (skipFor "pypdf") 0 ["hello"])]) ++
      [.out "Finished trying all libraries"] ∧
    Event.attempt "PyPDF2" ∉
      (extract_profile ⟨.complete ["hello"], .importError "a", .importError "b"⟩
        ⟨true, 3⟩).events :=
  ⟨(c5_first_success_wins ⟨.complete ["hello"], .importError "a", .importError "b"⟩
      ⟨true, 3⟩ [] ["PyPDF2", "pdfplumber"] "pypdf" ["hello"] rfl (by simp)
      (by decide) (by decide)).1,
   (c5_first_success_wins ⟨.complete ["hello"], .importError "a", .importError "b"⟩
      ⟨true, 3⟩ [] ["PyPDF2", "pdfplumber"] "pypdf" ["hello"] rfl (by simp)
      (by decide) (by decide)).2 "PyPDF2" (by simp)⟩

/-!
Claim C7.
-/

/-- C7, counterexample: the claim says that when the first backend is
unavailable, whatever result the second produces — success or failure — is
returned unchanged.  With pypdf unavailable and PyPDF2 raising an error, the
run's result is not PyPDF2's failure: the third backend pdfplumber is
attempted as well and its success becomes the output. -/
theorem c7_counterexample :
    (extract_profile ⟨.importError "m", .raiseError [] "boom", .complete ["x"]⟩
        ⟨false, 0⟩).events =
      [.out ("Trying to process PDF: " ++ pdf_path), .out "File exists: False",
       .attempt "pypdf", .out "pypdf not available",
       .attempt "PyPDF2", .out "Error with PyPDF2: boom",
       .attempt "pdfplumber", .out "SUCCESS with pdfplumber:",
       .out "=== PAGE 1 ===\nx\n\n",
       .out "Finished trying all libraries"] ∧
    Event.attempt "pdfplumber" ∈
      (extract_profile ⟨.importError "m", .raiseError [] "boom", .complete ["x"]⟩
        ⟨false, 0⟩).events :=
  ⟨by decide, by decide⟩

/-- C7, amended: when the first backend's import fails, the second backend
is indeed tried automatically.  If the second completes, its result is the
output and no further backend is attempted; if the second fails, its failure
message is recorded but `extract_profile.py` continues to the third backend
instead of returning that failure.  In `extract_pdf.py` the completed
fallback's output is printed unchanged. -/
theorem c7_second_backend_fallback (e : Env) (fs : FsInfo) (m : String)
    (himp : e.pypdf = .importError m) :
    Event.attempt "PyPDF2" ∈ (extract_profile e fs).events ∧
    (∀ ps, e.PyPDF2 = .complete ps →
      Event.out "SUCCESS with PyPDF2:" ∈ (extract_profile e fs).events ∧
      Event.out (accumFrom false 0 ps) ∈ (extract_profile e fs).events ∧
      Event.attempt "pdfplumber" ∉ (extract_profile e fs).events) ∧
    (∀ ps m2, e.PyPDF2 = .raiseError ps m2 →
      Event.out ("Error with PyPDF2: " ++ m2) ∈ (extract_profile e fs).events ∧
      Event.attempt "pdfplumber" ∈ (extract_profile e fs).events) ∧
    (∀ (d : PdfEnv) (m3 : String) (ps : List String),
      d.pdfplumber = .importError m3 → d.PyPDF2 = .complete ps →
      extract_pdf d = .finished [.attempt "pdfplumber",
        .out ("Error importing pdfplumber: " ++ m3), .attempt "PyPDF2",
        .out (accumFrom true 0 ps)]) := by
  have hstep1 : profileStep e "pypdf" =
      ([.attempt "pypdf", .out ("pypdf" ++ " not available")], false) := by
    rw [profileStep_pypdf, himp, profileTry_importError]
  refine ⟨?_, ?_, ?_, ?_⟩
  · apply mem_events_of_mem_loop
    apply mem_loop_tail _ _ _ (by rw [hstep1])
    apply mem_loop_head
    rw [profileStep_PyPDF2]; exact attempt_mem_try _ _ _
  · intro ps hok
    have hstep2 : profileStep e "PyPDF2" =
        ([.attempt "PyPDF2", .out ("SUCCESS with " ++ "PyPDF2" ++ ":"),
          .out (accumFrom false 0 ps)], true) := by
      rw [profileStep_PyPDF2, hok, profileTry_complete]
    have hloop : profileLoop e libraries_to_try =
        [.attempt "pypdf", .out ("pypdf" ++ " not available")] ++
          [.attempt "PyPDF2", .out ("SUCCESS with " ++ "PyPDF2" ++ ":"),
           .out (accumFrom false 0 ps)] := by
      rw [show libraries_to_try = "pypdf" :: "PyPDF2" :: ["pdfplumber"] from rfl,
        loop_continue _ _ _ (by rw [hstep1]),
        loop_break _ _ _ (by rw [hstep2]), hstep1, hstep2]
    refine ⟨?_, ?_, ?_⟩
    · apply mem_events_of_mem_loop; rw [hloop]; simp
    · apply mem_events_of_mem_loop; rw [hloop]; simp
    · intro hmem
      rw [events_def, hloop] at hmem
      rcases List.mem_append.mp hmem with h | h
      · rcases List.mem_append.mp h with h | h
        · exact attempt_not_mem_header fs "pdfplumber" h
        · simp at h
      · simp at h
  · intro ps m2 hr
    have hstep2 : profileStep e "PyPDF2" =
        ([.attempt "PyPDF2", .out ("Error with PyPDF2: " ++ m2)], false) := by
      rw [profileStep_PyPDF2, hr, profileTry_raiseError]; rfl
    constructor
    · apply mem_events_of_mem_loop
      apply mem_loop_tail _ _ _ (by rw [hstep1])
      apply mem_loop_head
      rw [hstep2]; simp
    · apply mem_events_of_mem_loop
      apply mem_loop_tail _ _ _ (by rw [hstep1])
      apply mem_loop_tail _ _ _ (by rw [hstep2])
      apply mem_loop_head
      rw [profileStep_pdfplumber]; exact attempt_mem_try _ _ _
  · intro d m3 ps h1 h2
    simp [extract_pdf, h1, h2, runBackend]

/-- C7, witness for the amended theorem at concrete inputs. -/
theorem c7_witness :
    Event.attempt "PyPDF2" ∈
      (extract_profile ⟨.importError "m", .complete ["x"], .importError "z"⟩
        ⟨true, 2⟩).events ∧
    (Event.out "SUCCESS with PyPDF2:" ∈
       (extract_profile ⟨.importError "m", .complete ["x"], .importError "z"⟩
         ⟨true, 2⟩).events ∧
     Event.out (accumFrom false 0 ["x"]) ∈
       (extract_profile ⟨.importError "m", .complete ["x"], .importError "z"⟩
         ⟨true, 2⟩).events ∧
     Event.attempt "pdfplumber" ∉
       (extract_profile ⟨.importError "m", .complete ["x"], .importError "z"⟩
         ⟨true, 2⟩).events) ∧
    (Event.out "Error with PyPDF2: b" ∈
       (extract_profile ⟨.importError "m", .raiseError [] "b", .complete ["y"]⟩
         ⟨true, 2⟩).events ∧
     Event.attempt "pdfplumber" ∈
       (extract_profile ⟨.importError "m", .raiseError [] "b", .complete ["y"]⟩
         ⟨true, 2⟩).events) ∧
    extract_pdf ⟨.importError "m3", .complete ["y"]⟩ =
      .finished [.attempt "pdfplumber", .out "Error importing pdfplumber: m3",
        .attempt "PyPDF2", .out (accumFrom true 0 ["y"])] :=
  ⟨(c7_second_backend_fallback ⟨.importError "m", .complete ["x"], .importError "z"⟩
      ⟨true, 2⟩ "m" rfl).1,
   (c7_second_backend_fallback ⟨.importError "m", .complete ["x"], .importError "z"⟩
      ⟨true, 2⟩ "m" rfl).2.1 ["x"] rfl,
   (c7_second_backend_fallback ⟨.importError "m", .raiseError [] "b", .complete ["y"]⟩
      ⟨true, 2⟩ "m" rfl).2.2.1 [] "b" rfl,
   (c7_second_backend_fallback ⟨.importError "m", .raiseError [] "b", .complete ["y"]⟩
      ⟨true, 2⟩ "m" rfl).2.2.2 ⟨.importError "m3", .complete ["y"]⟩ "m3" ["y"] rfl rfl⟩

theorem out_mem_try (b : Behavior) (lib : String) (sk : Bool) (s : String)
    (h : Event.out s ∈ (profileTry b lib sk).1) :
    s = "SUCCESS with " ++ lib ++ ":" ∨ s = lib ++ " not available" ∨
    (∃ ps m, b = .raiseError ps m ∧ s = "Error with " ++ lib ++ ": " ++ m) ∨
    (∃ ps, b = .complete ps ∧ s = accumFrom sk 0 ps) := by
  cases b with
  | importError m =>
    simp [profileTry, runBackend] at h
    exact Or.inr (Or.inl h)
  | raiseError ps m =>
    simp [profileTry, runBackend] at h
    exact Or.inr (Or.inr (Or.inl ⟨ps, m, rfl, h⟩))
  | complete ps =>
    simp [profileTry, runBackend] at h
    rcases h with h | h
    · exact Or.inl h
    · exact Or.inr (Or.inr (Or.inr ⟨ps, rfl, h⟩))

theorem out_mem_step (e : Env) (lib : String) (s : String)
    (h : Event.out s ∈ (profileStep e lib).1) :
    s = "SUCCESS with " ++ lib ++ ":" ∨ s = lib ++ " not available" ∨
    (∃ ps m, Env.get e lib = .raiseError ps m ∧ s = "Error with " ++ lib ++ ": " ++ m) ∨
    (∃ ps, Env.get e lib = .complete ps ∧ s = accumFrom (skipFor lib) 0 ps) := by
  by_cases h1 : lib = "pypdf"
  · subst h1
    rw [profileStep_pypdf] at h
    have hh := out_mem_try e.pypdf "pypdf" false s h
    simpa [Env.get, skipFor] using hh
  by_cases h2 : lib = "PyPDF2"
  · subst h2
    rw [profileStep_PyPDF2] at h
    have hh := out_mem_try e.PyPDF2 "PyPDF2" false s h
    simpa [Env.get, skipFor] using hh
  by_cases h3 : lib = "pdfplumber"
  · subst h3
    rw [profileStep_pdfplumber] at h
    have hh := out_mem_try e.pdfplumber "pdfplumber" true s h
    simpa [Env.get, skipFor] using hh
  · exfalso
    simp [profileStep, h1, h2, h3] at h

theorem out_mem_loop (e : Env) (s : String) :
    ∀ libs, Event.out s ∈ profileLoop e libs →
      ∃ lib ∈ libs, Event.out s ∈ (profileStep e lib).1 := by
  intro libs
  induction libs with
  | nil => intro h; simp [profileLoop] at h
  | cons lib rest ih =>
    intro h
    cases hb : (profileStep e lib).2
    · rw [loop_continue _ _ _ hb] at h
      rcases List.mem_append.mp h with h | h
      · exact ⟨lib, by simp, h⟩
      · obtain ⟨l, hl, hm⟩ := ih h
        exact ⟨l, by simp [hl], hm⟩
    · rw [loop_break _ _ _ hb] at h
      exact ⟨lib, by simp, h⟩

/-!
Claim C10.
-/

/-- C10: error atomicity of a backend attempt in `extract_profile.py` —
every printed string is either one of the fixed diagnostics (header lines,
footer, availability and error messages) or the full accumulation of a
backend whose page loop ran to completion.  Text partially accumulated by a
backend that raised mid-iteration is discarded and never printed, because
`print(text)` is reached only after the loop finishes. -/
theorem c10_output_only_from_completed (e : Env) (fs : FsInfo) (s : String)
    (h : Event.out s ∈ (extract_profile e fs).events) :
    s = "Trying to process PDF: " ++ pdf_path ∨
    s = "File exists: " ++ (if fs.present then "True" else "False") ∨
    s = "File size: " ++ toString fs.size ++ " bytes" ∨
    s = "Finished trying all libraries" ∨
    (∃ lib ∈ libraries_to_try, s = "SUCCESS with " ++ lib ++ ":" ∨
      s = lib ++ " not available" ∨
      ∃ ps m, Env.get e lib = .raiseError ps m ∧ s = "Error with " ++ lib ++ ": " ++ m) ∨
    (∃ lib ∈ libraries_to_try, ∃ ps, Env.get e lib = .complete ps ∧
      s = accumFrom (skipFor lib) 0 ps) := by
  rw [events_def] at h
  rcases List.mem_append.mp h with h | h
  · rcases List.mem_append.mp h with h | h
    · cases hp : fs.present <;> simp [headerEvents, hp] at h <;> simp [hp] <;> tauto
    · obtain ⟨lib, hlib, hm⟩ := out_mem_loop e s libraries_to_try h
      rcases out_mem_step e lib s hm with h1 | h1 | h1 | h1
      · exact Or.inr (Or.inr (Or.inr (Or.inr (Or.inl ⟨lib, hlib, Or.inl h1⟩))))
      · exact Or.inr (Or.inr (Or.inr (Or.inr (Or.inl ⟨lib, hlib, Or.inr (Or.inl h1)⟩))))
      · exact Or.inr (Or.inr (Or.inr (Or.inr (Or.inl ⟨lib, hlib, Or.inr (Or.inr h1)⟩))))
      · exact Or.inr (Or.inr (Or.inr (Or.inr (Or.inr ⟨lib, hlib, h1⟩))))
  · simp at h
    tauto

/-- C10, witness: the success text printed by a completed pypdf run
satisfies the output characterization. -/
theorem c10_witness :
    Event.out "=== PAGE 1 ===\nhi\n\n" ∈
      (extract_profile ⟨.complete ["hi"], .importError "m", .importError "m"⟩
        ⟨true, 7⟩).events ∧
    ("=== PAGE 1 ===\nhi\n\n" = "Trying to process PDF: " ++ pdf_path ∨
     "=== PAGE 1 ===\nhi\n\n" =
       "File exists: " ++ (if (FsInfo.mk true 7).present then "True" else "False") ∨
     "=== PAGE 1 ===\nhi\n\n" = "File size: " ++ toString (7 : Nat) ++ " bytes" ∨
     "=== PAGE 1 ===\nhi\n\n" = "Finished trying all libraries" ∨
     (∃ lib ∈ libraries_to_try,
       "=== PAGE 1 ===\nhi\n\n" = "SUCCESS with " ++ lib ++ ":" ∨
       "=== PAGE 1 ===\nhi\n\n" = lib ++ " not available" ∨
       ∃ ps m, Env.get ⟨.complete ["hi"], .importError "m", .importError "m"⟩ lib =
           .raiseError ps m ∧
         "=== PAGE 1 ===\nhi\n\n" = "Error with " ++ lib ++ ": " ++ m) ∨
     (∃ lib ∈ libraries_to_try, ∃ ps,
       Env.get ⟨.complete ["hi"], .importError "m", .importError "m"⟩ lib =
           .complete ps ∧
       "=== PAGE 1 ===\nhi\n\n" = accumFrom (skipFor lib) 0 ps)) :=
  ⟨by decide,
   c10_output_only_from_completed ⟨.complete ["hi"], .importError "m", .importError "m"⟩
     ⟨true, 7⟩ "=== PAGE 1 ===\nhi\n\n" (by decide)⟩

/-!
Decimal rendering of page numbers: the characters produced by `toString`
on a natural number are non-empty, all digits, and parse back to the same
number.
-/

theorem digitVal_digitChar (d : Nat) (h : d < 10) : digitVal (Nat.digitChar d) = d := by
  interval_cases d <;> rfl

theorem digitChar_isDigit (d : Nat) (h : d < 10) : (Nat.digitChar d).isDigit = true := by
  interval_cases d <;> rfl

theorem isDigit_ne_newline (c : Char) (h : c.isDigit = true) : c ≠ '\n' := by
  intro he; subst he; simp [Char.isDigit] at h

theorem myDigits_lt (n : Nat) (h : n < 10) : myDigits n = [Nat.digitChar n] := by
  rw [myDigits, dif_pos h]

theorem myDigits_ge (n : Nat) (h : ¬ n < 10) :
    myDigits n = myDigits (n / 10) ++ [Nat.digitChar (n % 10)] := by
  conv_lhs => rw [myDigits]
  rw [dif_neg h]

theorem myDigits_ne_nil (n : Nat) : myDigits n ≠ [] := by
  by_cases h : n < 10
  · rw [myDigits_lt n h]; simp
  · rw [myDigits_ge n h]; simp

theorem myDigits_all_digit (n : Nat) : ∀ c ∈ myDigits n, c.isDigit = true := by
  induction n using Nat.strong_induction_on with
  | _ n ih =>
    by_cases h : n < 10
    · rw [myDigits_lt n h]
      intro c hc
      simp at hc
      subst hc
      exact digitChar_isDigit n h
    · rw [myDigits_ge n h]
      intro c hc
      rcases List.mem_append.mp hc with hc | hc
      · exact ih (n / 10) (Nat.div_lt_self (by omega) (by omega)) c hc
      · simp at hc
        subst hc
        exact digitChar_isDigit (n % 10) (by omega)

theorem digitsVal_concat (l : List Char) (c : Char) :
    digitsVal (l ++ [c]) = 10 * digitsVal l + digitVal c := by
  simp [digitsVal, List.foldl_append]

theorem digitsVal_myDigits (n : Nat) : digitsVal (myDigits n) = n := by
  induction n using Nat.strong_induction_on with
  | _ n ih =>
    by_cases h : n < 10
    · rw [myDigits_lt n h]
      show digitsVal ([] ++ [Nat.digitChar n]) = n
      rw [digitsVal_concat]
      simp [digitsVal, digitVal_digitChar n h]
    · rw [myDigits_ge n h, digitsVal_concat,
        ih (n / 10) (Nat.div_lt_self (by omega) (by omega)),
        digitVal_digitChar (n % 10) (by omega)]
      omega

theorem toDigitsCore_spec :
    ∀ fuel n ds, n < fuel → Nat.toDigitsCore 10 fuel n ds = myDigits n ++ ds := by
  intro fuel
  induction fuel with
  | zero => intro n ds h; omega
  | succ f ih =>
    intro n ds h
    show (if n / 10 = 0 then Nat.digitChar (n % 10) :: ds
      else Nat.toDigitsCore 10 f (n / 10) (Nat.digitChar (n % 10) :: ds)) =
        myDigits n ++ ds
    by_cases h10 : n / 10 = 0
    · have hn : n < 10 := by omega
      rw [if_pos h10, myDigits_lt n hn, Nat.mod_eq_of_lt hn]
      rfl
    · have hn0 : n ≠ 0 := by
        intro h0; subst h0; simp at h10
      have hlt : n / 10 < n := Nat.div_lt_self (by omega) (by omega)
      rw [if_neg h10, ih (n / 10) _ (by omega), myDigits_ge n (by omega)]
      simp

theorem toString_nat_data (n : Nat) : (toString n).data = myDigits n := by
  show Nat.toDigits 10 n = myDigits n
  rw [Nat.toDigits, toDigitsCore_spec (n + 1) n [] (Nat.lt_succ_self n),
    List.append_nil]

theorem str_data_append (x y : String) : (x ++ y).data = x.data ++ y.data := by
  cases x; cases y; rfl

theorem dropFront_append (p l : List Char) : dropFront p (p ++ l) = some l := by
  induction p with
  | nil => rfl
  | cons c p ih => simp [dropFront, ih]

theorem parseMarker_markerLine (k : Nat) : parseMarker (markerLine k) = some k := by
  have hlen : ((toString k).data ++ markerSuf).length - 4 = (toString k).data.length := by
    simp [markerSuf]
  simp only [parseMarker, markerLine, List.append_assoc, dropFront_append, hlen,
    List.take_left, List.drop_left]
  rw [if_pos]
  · rw [toString_nat_data, digitsVal_myDigits]
  · refine ⟨trivial, ?_, ?_⟩
    · rw [toString_nat_data]; exact myDigits_ne_nil k
    · rw [toString_nat_data]
      exact List.all_eq_true.mpr fun c hc => myDigits_all_digit k c hc

/-!
Lemmas about `lineSplit`, `joinLines` and `groupAux`.
-/

theorem consHead_ne_nil (c : Char) (ll : List (List Char)) : consHead c ll ≠ [] := by
  cases ll <;> simp [consHead]

theorem lineSplit_ne_nil (cs : List Char) : lineSplit cs ≠ [] := by
  induction cs with
  | nil => simp [lineSplit]
  | cons c cs ih =>
    by_cases hc : c = '\n'
    · simp [lineSplit, hc]
    · simp only [lineSplit, if_neg hc]
      exact consHead_ne_nil c (lineSplit cs)

theorem consHead_append (c : Char) (xs ys : List (List Char)) (h : xs ≠ []) :
    consHead c (xs ++ ys) = consHead c xs ++ ys := by
  cases xs with
  | nil => exact absurd rfl h
  | cons l ls => simp [consHead]

theorem lineSplit_append_newline (t z : List Char) :
    lineSplit (t ++ '\n' :: z) = lineSplit t ++ lineSplit z := by
  induction t with
  | nil => simp [lineSplit]
  | cons c t ih =>
    by_cases hc : c = '\n'
    · subst hc
      show lineSplit ('\n' :: (t ++ '\n' :: z)) = lineSplit ('\n' :: t) ++ lineSplit z
      rw [lineSplit, lineSplit, if_pos rfl, if_pos rfl, ih]
      rfl
    · show lineSplit (c :: (t ++ '\n' :: z)) = lineSplit (c :: t) ++ lineSplit z
      rw [lineSplit, lineSplit, if_neg hc, if_neg hc, ih]
      exact consHead_append c (lineSplit t) (lineSplit z) (lineSplit_ne_nil t)

theorem lineSplit_no_newline (a : List Char) (h : ∀ c ∈ a, c ≠ '\n') :
    lineSplit a = [a] := by
  induction a with
  | nil => rfl
  | cons c a ih =>
    have hc : c ≠ '\n' := h c (by simp)
    have ha : ∀ x ∈ a, x ≠ '\n' := fun x hx => h x (by simp [hx])
    simp only [lineSplit, if_neg hc, ih ha]
    rfl

theorem markerLine_no_newline (k : Nat) : ∀ c ∈ markerLine k, c ≠ '\n' := by
  intro c hc
  rw [markerLine] at hc
  rcases List.mem_append.mp hc with h | h
  · rcases List.mem_append.mp h with h | h
    · intro he; subst he; simp [markerPre] at h
    · rw [toString_nat_data] at h
      exact isDigit_ne_newline c (myDigits_all_digit k c h)
  · intro he; subst he; simp [markerSuf] at h

theorem lineSplit_markerLine (k : Nat) : lineSplit (markerLine k) = [markerLine k] :=
  lineSplit_no_newline (markerLine k) (markerLine_no_newline k)

theorem joinLines_consHead (c : Char) (ll : List (List Char)) :
    joinLines (consHead c ll) = c :: joinLines ll := by
  cases ll with
  | nil => rfl
  | cons l ls =>
    cases ls with
    | nil => rfl
    | cons x xs => rfl

theorem joinLines_lineSplit (x : List Char) : joinLines (lineSplit x) = x := by
  induction x with
  | nil => rfl
  | cons c cs ih =>
    by_cases hc : c = '\n'
    · subst hc
      simp only [lineSplit, if_pos rfl]
      obtain ⟨l, ls, hls⟩ : ∃ l ls, lineSplit cs = l :: ls := by
        cases h : lineSplit cs with
        | nil => exact absurd h (lineSplit_ne_nil cs)
        | cons l ls => exact ⟨l, ls, rfl⟩
      rw [hls]
      show [] ++ '\n' :: joinLines (l :: ls) = '\n' :: cs
      rw [← hls, ih]
      rfl
    · simp only [lineSplit, if_neg hc, joinLines_consHead, ih]

theorem groupAux_skip_body (body : List (List Char)) :
    ∀ (rest : List (List Char)) (k0 : Nat) (acc : List (List Char)),
      (∀ l ∈ body, parseMarker l = none) →
      groupAux (some (k0, acc)) (body ++ rest) =
        groupAux (some (k0, body.reverse ++ acc)) rest := by
  induction body with
  | nil => intro rest k0 acc _; rfl
  | cons l body ih =>
    intro rest k0 acc h
    have hl : parseMarker l = none := h l (by simp)
    have hb : ∀ x ∈ body, parseMarker x = none := fun x hx => h x (by simp [hx])
    show groupAux (some (k0, acc)) (l :: (body ++ rest)) = _
    rw [show groupAux (some (k0, acc)) (l :: (body ++ rest)) =
        groupAux (some (k0, l :: acc)) (body ++ rest) from by simp [groupAux, hl]]
    rw [ih rest k0 (l :: acc) hb]
    congr 2
    simp

theorem groupAux_marker_start (l : List Char) (ls : List (List Char)) (k : Nat)
    (h : parseMarker l = some k) :
    groupAux none (l :: ls) = groupAux (some (k, [])) ls := by
  simp [groupAux, h]

theorem groupAux_marker_next (l : List Char) (ls : List (List Char)) (k k0 : Nat)
    (acc : List (List Char)) (h : parseMarker l = some k) :
    groupAux (some (k0, acc)) (l :: ls) =
      (k0, acc.reverse) :: groupAux (some (k, [])) ls := by
  simp [groupAux, h]

theorem groupAux_some_bodyLines :
    ∀ (secs : List (Nat × String)) (k0 : Nat) (acc : List (List Char)),
      (∀ s ∈ secs, cleanText s.2) →
      groupAux (some (k0, acc)) (bodyLines secs) =
        (k0, acc.reverse) ::
          secs.map (fun s => (s.1, lineSplit s.2.data ++ [[]])) := by
  intro secs
  induction secs with
  | nil => intro k0 acc _; rfl
  | cons s rest ih =>
    intro k0 acc h
    obtain ⟨k, t⟩ := s
    have hclean : cleanText t := h (k, t) (by simp)
    have hrest : ∀ x ∈ rest, cleanText x.2 := fun x hx => h x (by simp [hx])
    have hbody : ∀ l ∈ lineSplit t.data ++ [([] : List Char)], parseMarker l = none := by
      intro l hl
      rcases List.mem_append.mp hl with hl | hl
      · exact hclean l hl
      · simp at hl; subst hl; rfl
    show groupAux (some (k0, acc))
        (markerLine k :: (lineSplit t.data ++ ([] :: bodyLines rest))) = _
    rw [groupAux_marker_next _ _ _ _ _ (parseMarker_markerLine k),
      show lineSplit t.data ++ ([] :: bodyLines rest) =
        (lineSplit t.data ++ [[]]) ++ bodyLines rest from by simp,
      groupAux_skip_body _ _ _ _ hbody]
    have hih := ih k ((lineSplit t.data ++ [[]]).reverse ++ []) hrest
    rw [hih]
    simp

theorem groupAux_none_bodyLines (secs : List (Nat × String))
    (h : ∀ s ∈ secs, cleanText s.2) :
    groupAux none (bodyLines secs) =
      secs.map (fun s => (s.1, lineSplit s.2.data ++ [[]])) := by
  cases secs with
  | nil => rfl
  | cons s rest =>
    obtain ⟨k, t⟩ := s
    have hclean : cleanText t := h (k, t) (by simp)
    have hrest : ∀ x ∈ rest, cleanText x.2 := fun x hx => h x (by simp [hx])
    have hbody : ∀ l ∈ lineSplit t.data ++ [([] : List Char)], parseMarker l = none := by
      intro l hl
      rcases List.mem_append.mp hl with hl | hl
      · exact hclean l hl
      · simp at hl; subst hl; rfl
    show groupAux none
        (markerLine k :: (lineSplit t.data ++ ([] :: bodyLines rest))) = _
    rw [groupAux_marker_start _ _ _ (parseMarker_markerLine k),
      show lineSplit t.data ++ ([] :: bodyLines rest) =
        (lineSplit t.data ++ [[]]) ++ bodyLines rest from by simp,
      groupAux_skip_body _ _ _ _ hbody]
    have hih := groupAux_some_bodyLines rest k ((lineSplit t.data ++ [[]]).reverse ++ []) hrest
    rw [hih]
    simp

theorem lineSplit_flatRender (secs : List (Nat × String)) :
    lineSplit (flatRender secs) = renderLines secs := by
  induction secs with
  | nil => rfl
  | cons s rest ih =>
    obtain ⟨k, t⟩ := s
    show lineSplit (sectionChars k t ++ flatRender rest) = _
    rw [sectionChars,
      show (markerLine k ++ '\n' :: (t.data ++ ['\n', '\n'])) ++ flatRender rest =
        markerLine k ++ '\n' :: (t.data ++ '\n' :: ('\n' :: flatRender rest)) from by simp,
      lineSplit_append_newline (markerLine k), lineSplit_markerLine,
      lineSplit_append_newline t.data,
      show lineSplit ('\n' :: flatRender rest) = [] :: lineSplit (flatRender rest) from by
        rw [lineSplit, if_pos rfl],
      ih]
    rfl

theorem renderLines_eq (secs : List (Nat × String)) :
    renderLines secs = bodyLines secs ++ [[]] := by
  induction secs with
  | nil => rfl
  | cons s rest ih =>
    show markerLine s.1 :: (lineSplit s.2.data ++ ([] :: renderLines rest)) = _
    rw [ih]
    simp [bodyLines]

theorem stripTrailingNil_concat (ls : List (List Char)) :
    stripTrailingNil (ls ++ [[]]) = ls := by
  simp [stripTrailingNil, List.getLast?_concat, List.dropLast_concat]

theorem list_map_self {α : Type} (f : α → α) :
    ∀ l : List α, (∀ a ∈ l, f a = a) → l.map f = l := by
  intro l
  induction l with
  | nil => intro _; rfl
  | cons a l ih =>
    intro h
    simp [h a (by simp), ih (fun x hx => h x (by simp [hx]))]

theorem splitPages_flatRender (secs : List (Nat × String))
    (h : ∀ s ∈ secs, cleanText s.2) :
    splitPages (String.mk (flatRender secs)) = secs := by
  rw [splitPages,
    show (String.mk (flatRender secs)).data = flatRender secs from rfl,
    lineSplit_flatRender, renderLines_eq, stripTrailingNil_concat,
    groupAux_none_bodyLines secs h, List.map_map]
  apply list_map_self
  intro s _
  obtain ⟨k, t⟩ := s
  simp only [Function.comp]
  rw [List.dropLast_concat, joinLines_lineSplit]

theorem accumFrom_data (skip : Bool) :
    ∀ (ps : List String) (i : Nat),
      (accumFrom skip i ps).data = flatRender (emittedSections skip i ps) := by
  intro ps
  induction ps with
  | nil => intro i; rfl
  | cons t ts ih =>
    intro i
    show ((if skip && (t == "") then "" else pageSection (i + 1) t) ++
        accumFrom skip (i + 1) ts).data =
      flatRender ((if skip && (t == "") then [] else [(i + 1, t)]) ++
        emittedSections skip (i + 1) ts)
    by_cases hb : (skip && (t == "")) = true
    · rw [if_pos hb, if_pos hb, str_data_append, ih (i + 1)]
      rfl
    · rw [if_neg hb, if_neg hb, str_data_append, ih (i + 1)]
      show (pageSection (i + 1) t).data ++ flatRender (emittedSections skip (i + 1) ts) =
        flatRender ((i + 1, t) :: emittedSections skip (i + 1) ts)
      rw [show flatRender ((i + 1, t) :: emittedSections skip (i + 1) ts) =
          sectionChars (i + 1) t ++ flatRender (emittedSections skip (i + 1) ts) from rfl]
      congr 1
      rw [pageSection, sectionChars, markerLine, str_data_append, str_data_append,
        str_data_append, str_data_append,
        show ("=== PAGE " : String).data = markerPre from rfl,
        show (" ===\n" : String).data = markerSuf ++ ['\n'] from rfl,
        show ("\n\n" : String).data = ['\n', '\n'] from rfl]
      simp

theorem emitted_text_mem (skip : Bool) :
    ∀ (ps : List String) (i : Nat) (s : Nat × String),
      s ∈ emittedSections skip i ps → s.2 ∈ ps := by
  intro ps
  induction ps with
  | nil => intro i s h; simp [emittedSections] at h
  | cons t ts ih =>
    intro i s h
    show s.2 ∈ t :: ts
    replace h : s ∈ (if skip && (t == "") then [] else [(i + 1, t)]) ++
        emittedSections skip (i + 1) ts := h
    rcases List.mem_append.mp h with h | h
    · by_cases hb : (skip && (t == "")) = true
      · rw [if_pos hb] at h; simp at h
      · rw [if_neg hb] at h
        simp at h
        subst h
        simp
    · simp [ih (i + 1) s h]

/-!
Claim C9.
-/

/-- C9, counterexample: the claim holds for every successful extraction, but
a page text may itself contain a line of the marker form; re-splitting the
concatenation then yields different page indices and texts than the emitted
ones.  Here the single page 1 with text `=== PAGE 2 ===\nx` re-splits to two
pages `(1, "")` and `(2, "x")`. -/
theorem c9_counterexample :
    emittedSections false 0 ["=== PAGE 2 ===\nx"] = [(1, "=== PAGE 2 ===\nx")] ∧
    splitPages (accumFrom false 0 ["=== PAGE 2 ===\nx"]) = [(1, ""), (2, "x")] ∧
    splitPages (accumFrom false 0 ["=== PAGE 2 ===\nx"]) ≠
      emittedSections false 0 ["=== PAGE 2 ===\nx"] ∧
    Event.out (accumFrom false 0 ["=== PAGE 2 ===\nx"]) ∈
      (extract_profile ⟨.complete ["=== PAGE 2 ===\nx"], .importError "m",
        .importError "m"⟩ ⟨true, 5⟩).events := by
  refine ⟨by decide, by decide, by decide, by decide⟩

/-- C9, amended: the round-trip holds whenever no line of an emitted page
text is itself of the marker form `=== PAGE <digits> ===`: re-splitting the
accumulated output on its marker lines reproduces exactly the emitted
sequence of (page index, page text) pairs, for both the guarded
(pdfplumber-style) and unguarded (pypdf/PyPDF2-style) loops. -/
theorem c9_roundtrip (skip : Bool) (ps : List String)
    (h : ∀ t ∈ ps, cleanText t) :
    splitPages (accumFrom skip 0 ps) = emittedSections skip 0 ps := by
  have hd := accumFrom_data skip ps 0
  have heq : accumFrom skip 0 ps =
      String.mk (flatRender (emittedSections skip 0 ps)) := by
    rw [← hd]
  rw [heq]
  apply splitPages_flatRender
  intro s hs
  exact h s.2 (emitted_text_mem skip ps 0 s hs)

/-- C9, witness: the round-trip at a concrete two-page document, one page
text containing an inner newline. -/
theorem c9_witness :
    splitPages (accumFrom false 0 ["hello", "wor\nld"]) =
      emittedSections false 0 ["hello", "wor\nld"] :=
  c9_roundtrip false ["hello", "wor\nld"] (by decide)

theorem emitted_false_fst :
    ∀ (ps : List String) (i : Nat),
      (emittedSections false i ps).map Prod.fst = List.range' (i + 1) ps.length := by
  intro ps
  induction ps with
  | nil => intro i; rfl
  | cons t ts ih =>
    intro i
    show ((if (false && (t == "")) = true then [] else [(i + 1, t)]) ++
        emittedSections false (i + 1) ts).map Prod.fst = _
    rw [if_neg (by simp)]
    show (i + 1) :: (emittedSections false (i + 1) ts).map Prod.fst =
      List.range' (i + 1) (ts.length + 1)
    rw [ih (i + 1), List.range'_succ]

theorem emitted_true_eq_false_of_nonempty :
    ∀ (ps : List String) (i : Nat), (∀ t ∈ ps, t ≠ "") →
      emittedSections true i ps = emittedSections false i ps := by
  intro ps
  induction ps with
  | nil => intro i _; rfl
  | cons t ts ih =>
    intro i h
    have ht : ¬ (t == "") = true := by
      simp only [beq_iff_eq]
      exact h t (by simp)
    show (if (true && (t == "")) = true then [] else [(i + 1, t)]) ++
        emittedSections true (i + 1) ts =
      (if (false && (t == "")) = true then [] else [(i + 1, t)]) ++
        emittedSections false (i + 1) ts
    rw [if_neg (by simpa using ht), if_neg (by simp),
      ih (i + 1) (fun x hx => h x (by simp [hx]))]

theorem emitted_fst_lt (skip : Bool) :
    ∀ (ps : List String) (i : Nat) (k : Nat),
      k ∈ (emittedSections skip i ps).map Prod.fst → i < k := by
  intro ps
  induction ps with
  | nil => intro i k h; simp [emittedSections] at h
  | cons t ts ih =>
    intro i k h
    replace h : k ∈ ((if skip && (t == "") then [] else [(i + 1, t)]) ++
        emittedSections skip (i + 1) ts).map Prod.fst := h
    rw [List.map_append] at h
    rcases List.mem_append.mp h with h | h
    · by_cases hb : (skip && (t == "")) = true
      · rw [if_pos hb] at h; simp at h
      · rw [if_neg hb] at h
        simp at h
        omega
    · have := ih (i + 1) k h
      omega

theorem emitted_fst_pairwise (skip : Bool) :
    ∀ (ps : List String) (i : Nat),
      List.Pairwise (· < ·) ((emittedSections skip i ps).map Prod.fst) := by
  intro ps
  induction ps with
  | nil => intro i; simp [emittedSections]
  | cons t ts ih =>
    intro i
    show List.Pairwise (· < ·) (((if skip && (t == "") then [] else [(i + 1, t)]) ++
      emittedSections skip (i + 1) ts).map Prod.fst)
    rw [List.map_append]
    by_cases hb : (skip && (t == "")) = true
    · rw [if_pos hb]
      simpa using ih (i + 1)
    · rw [if_neg hb]
      show List.Pairwise (· < ·) ((i + 1) :: (emittedSections skip (i + 1) ts).map Prod.fst)
      exact List.Pairwise.cons
        (fun k hk => by have := emitted_fst_lt skip ts (i + 1) k hk; omega)
        (ih (i + 1))

/-!
Claim C8.
-/

/-- C8, counterexample: the claim says that in every successful result the
page indices are contiguous, 1-based, and match the page count.  Under
pdfplumber, a three-page document whose middle page yields empty text
extracts successfully with indices 1 and 3 only — not contiguous and not
matching the page count 3. -/
theorem c8_counterexample :
    Event.out "SUCCESS with pdfplumber:" ∈
      (extract_profile ⟨.importError "m", .importError "m",
        .complete ["a", "", "b"]⟩ ⟨true, 5⟩).events ∧
    Event.out (accumFrom true 0 ["a", "", "b"]) ∈
      (extract_profile ⟨.importError "m", .importError "m",
        .complete ["a", "", "b"]⟩ ⟨true, 5⟩).events ∧
    (splitPages (accumFrom true 0 ["a", "", "b"])).map Prod.fst = [1, 3] ∧
    (["a", "", "b"] : List String).length = 3 ∧
    (splitPages (accumFrom true 0 ["a", "", "b"])).map Prod.fst ≠
      List.range' 1 3 := by
  refine ⟨by decide, by decide, by decide, rfl, by decide⟩

/-- C8, amended: page indices of a successful result are 1-based and
strictly increasing.  Under the unguarded pypdf/PyPDF2 loops they are
exactly `1, ..., pageCount` (contiguous and matching the page count); under
the guarded pdfplumber loops they are the 1-based positions of the pages
with non-empty text, so they are contiguous and match the page count
exactly when every page yields non-empty text. -/
theorem c8_page_indices (ps : List String) :
    (emittedSections false 0 ps).map Prod.fst = List.range' 1 ps.length ∧
    ((∀ t ∈ ps, t ≠ "") →
      (emittedSections true 0 ps).map Prod.fst = List.range' 1 ps.length) ∧
    List.Pairwise (· < ·) ((emittedSections true 0 ps).map Prod.fst) ∧
    (accumFrom false 0 ps).data = flatRender (emittedSections false 0 ps) ∧
    (accumFrom true 0 ps).data = flatRender (emittedSections true 0 ps) := by
  refine ⟨emitted_false_fst ps 0, ?_, emitted_fst_pairwise true ps 0,
    accumFrom_data false ps 0, accumFrom_data true ps 0⟩
  intro h
  rw [emitted_true_eq_false_of_nonempty ps 0 h]
  exact emitted_false_fst ps 0

/-- C8, witness for the amended theorem at a concrete input. -/
theorem c8_witness :
    (emittedSections false 0 ["a", "b"]).map Prod.fst = List.range' 1 2 ∧
    (emittedSections true 0 ["a", "b"]).map Prod.fst = List.range' 1 2 :=
  ⟨(c8_page_indices ["a", "b"]).1, (c8_page_indices ["a", "b"]).2.1 (by decide)⟩

theorem emitted_true_filter :
    ∀ (ps : List String) (i : Nat),
      emittedSections true i ps =
        (emittedSections false i ps).filter (fun s => !(s.2 == "")) := by
  intro ps
  induction ps with
  | nil => intro i; rfl
  | cons t ts ih =>
    intro i
    have hrhs : (if (false && (t == "")) = true then ([] : List (Nat × String))
        else [(i + 1, t)]) = [(i + 1, t)] := by simp
    show (if (true && (t == "")) = true then [] else [(i + 1, t)]) ++
        emittedSections true (i + 1) ts =
      ((if (false && (t == "")) = true then [] else [(i + 1, t)]) ++
        emittedSections false (i + 1) ts).filter (fun s => !(s.2 == ""))
    rw [hrhs, List.filter_append]
    by_cases ht : (t == "") = true
    · have hlhs : (if (true && (t == "")) = true then ([] : List (Nat × String))
          else [(i + 1, t)]) = [] := by simp [ht]
      rw [hlhs,
        show ([(i + 1, t)] : List (Nat × String)).filter (fun s => !(s.2 == "")) = []
          from by simp [List.filter_cons, ht],
        ih (i + 1)]
    · have hlhs : (if (true && (t == "")) = true then ([] : List (Nat × String))
          else [(i + 1, t)]) = [(i + 1, t)] := by simp [ht]
      rw [hlhs,
        show ([(i + 1, t)] : List (Nat × String)).filter (fun s => !(s.2 == "")) =
          [(i + 1, t)] from by simp [List.filter_cons, ht],
        ih (i + 1)]

/-!
Claim C6.
-/

/-- C6, counterexample: the claim says every empty page is omitted from the
concatenated output for every backend used.  Under the unguarded pypdf loop
of `extract_profile.py`, an empty page still contributes its marker: the
run prints `=== PAGE 1 ===` (with empty body) for a document whose only
page yields empty text. -/
theorem c6_counterexample :
    Event.out "=== PAGE 1 ===\n\n\n" ∈
      (extract_profile ⟨.complete [""], .importError "x", .importError "y"⟩
        ⟨true, 4⟩).events ∧
    accumFrom false 0 [""] = "=== PAGE 1 ===\n\n\n" ∧
    emittedSections false 0 [""] = [(1, "")] := by
  refine ⟨by decide, by decide, by decide⟩

/-- C6, amended: under the guarded pdfplumber loops (both scripts), the
sections emitted are exactly those of the unguarded loop whose text is
non-empty — empty pages contribute no marker and no text; under the
unguarded pypdf/PyPDF2 loops of `extract_profile.py`, an empty page still
contributes its marker with empty body.  In all branches empty pages never
cause the extraction to fail: a completed page loop is always a success. -/
theorem c6_empty_pages_omitted (ps : List String) (i : Nat) :
    emittedSections true i ps =
      (emittedSections false i ps).filter (fun s => !(s.2 == "")) ∧
    (accumFrom true i ps).data = flatRender (emittedSections true i ps) ∧
    (∀ skip : Bool, runBackend skip (.complete ps) = .ok (accumFrom skip 0 ps)) ∧
    (∀ (e : Env) (fs : FsInfo), e.pdfplumber = .complete ps →
      e.pypdf.fails = true → e.PyPDF2.fails = true →
      Event.out "SUCCESS with pdfplumber:" ∈ (extract_profile e fs).events) := by
  refine ⟨emitted_true_filter ps i, accumFrom_data true ps i, fun _ => rfl, ?_⟩
  intro e fs hok hf1 hf2
  have hstep : profileStep e "pdfplumber" =
      ([.attempt "pdfplumber", .out ("SUCCESS with " ++ "pdfplumber" ++ ":"),
        .out (accumFrom true 0 ps)], true) := by
    rw [profileStep_pdfplumber, hok, profileTry_complete]
  apply mem_events_of_mem_loop
  apply mem_loop_tail _ _ _ (step_pypdf_fails e hf1)
  apply mem_loop_tail _ _ _ (step_PyPDF2_fails e hf2)
  apply mem_loop_head
  rw [hstep]
  simp

/-- C6, witness for the amended theorem at a concrete input. -/
theorem c6_witness :
    emittedSections true 0 ["a", "", "b"] =
      (emittedSections false 0 ["a", "", "b"]).filter (fun s => !(s.2 == "")) ∧
    (accumFrom true 0 ["a", "", "b"]).data =
      flatRender (emittedSections true 0 ["a", "", "b"]) ∧
    runBackend true (.complete ["a", "", "b"]) =
      .ok (accumFrom true 0 ["a", "", "b"]) ∧
    Event.out "SUCCESS with pdfplumber:" ∈
      (extract_profile ⟨.importError "x", .importError "y",
        .complete ["a", "", "b"]⟩ ⟨true, 1⟩).events :=
  ⟨(c6_empty_pages_omitted ["a", "", "b"] 0).1,
   (c6_empty_pages_omitted ["a", "", "b"] 0).2.1,
   (c6_empty_pages_omitted ["a", "", "b"] 0).2.2.1 true,
   (c6_empty_pages_omitted ["a", "", "b"] 0).2.2.2
     ⟨.importError "x", .importError "y", .complete ["a", "", "b"]⟩ ⟨true, 1⟩
     rfl rfl rfl⟩
